import Mathlib

/-
Verification of the mnemonic-patterns reference script (src/python-patterns.py).
Each snippet of the script is embedded shallowly: literal inputs become Lean
literals, list comprehensions become List.map / folds, Python dictionaries
become association lists that keep insertion order, Python sets become Finsets,
and fallible conversions return Option values (Option.none models a raised
exception).
-/

namespace PyPatterns

/-! ## Model of the Python built-in int() conversion

Python int(x) on a string strips leading and trailing whitespace, accepts an
optional sign followed by a nonempty run of decimal digits, and raises
ValueError otherwise; int(None) raises TypeError; int(n) on an integer is the
identity. A raised exception is modelled as Option.none. -/

/-- Numeric value of a decimal digit character. -/
def digitVal (c : Char) : Nat := c.toNat - 48

/-- Parse a nonempty all-digit character list as a natural number, as the
digit-run part of Python int() does; Option.none models ValueError. -/
def parseDigits (cs : List Char) : Option Nat :=
  if cs.isEmpty then Option.none
  else cs.foldl
    (fun acc c =>
      match acc with
      | Option.none => Option.none
      | Option.some n =>
        if c.isDigit then Option.some (n * 10 + digitVal c) else Option.none)
    (Option.some 0)

/-- Drop leading and trailing whitespace from a character list, as Python int()
does to its string argument. -/
def trimChars (cs : List Char) : List Char :=
  ((cs.dropWhile Char.isWhitespace).reverse.dropWhile Char.isWhitespace).reverse

/-- Python int(s) on a string s: trim whitespace, optional sign, nonempty digit
run; Option.none models a ValueError. -/
def strToInt (str : String) : Option Int :=
  match trimChars str.toList with
  | '-' :: rest => (parseDigits rest).map (fun n => -(n : Int))
  | '+' :: rest => (parseDigits rest).map (fun n => (n : Int))
  | cs => (parseDigits cs).map (fun n => (n : Int))

/-- A Python value that can reach the int() conversion in the script: a string,
the None object, or an integer. -/
inductive PyVal where
  | str (s : String)
  | none
  | int (n : Int)
deriving DecidableEq

/-- Python int(value) on a PyVal; Option.none models a raised ValueError (bad
string) or TypeError (None). -/
def pyIntConv : PyVal → Option Int
  | PyVal.str s => strToInt s
  | PyVal.none => Option.none
  | PyVal.int n => Option.some n

/-! ## Section 11 of the script: error-handling patterns -/

/-- Embeds safe_convert (src/python-patterns.py lines 342-346): try int(value),
and on ValueError or TypeError return the caller-supplied default. -/
def safe_convert (value : PyVal) (d : Int) : Int :=
  (pyIntConv value).getD d

/-- test_values (line 348). -/
def test_values : List PyVal :=
  [PyVal.str "42", PyVal.str "abc", PyVal.none, PyVal.str "3.14"]

/-- converted list of section 11 (line 349): safe_convert mapped over
test_values with the default value 0. -/
def convertedFallback : List Int := test_values.map (fun v => safe_convert v 0)

/-! ## Section 1 of the script: list comprehensions -/

/-- numbers (line 21). -/
def numbers : List Int := [1, 2, 3, 4, 5]

/-- squared (line 22): [x**2 for x in numbers]. -/
def squared : List Int := numbers.map (fun x => x ^ 2)

/-- The digit string s of line 40. -/
def digitString : String := "13243242"

/-- converted (line 41): [int(char) for char in s]; a failing int() would
abort the comprehension, so the result is an Option. -/
def converted : Option (List Int) :=
  digitString.toList.mapM (fun ch => strToInt (String.mk [ch]))

/-! ## Section 2 of the script: dictionary merge

A Python dict is embedded as an association list that keeps insertion order:
assigning to an existing key overwrites its value in place, assigning to a new
key appends the pair at the end. -/

/-- One Python dict assignment d[k] = v: overwrite in place when the key is
present, append otherwise. -/
def dictSet {α β : Type} [DecidableEq α] (d : List (α × β)) (k : α) (v : β) :
    List (α × β) :=
  if k ∈ d.map Prod.fst then
    d.map (fun p => if p.1 = k then (k, v) else p)
  else d ++ [(k, v)]

/-- Python d.update(entries): assign each entry of entries into d in order. -/
def dictUpdate {α β : Type} [DecidableEq α] (d entries : List (α × β)) :
    List (α × β) :=
  entries.foldl (fun acc p => dictSet acc p.1 p.2) d

/-- The unpacking merge of line 82: a fresh dict receives all entries of d1 and
then all entries of d2. -/
def pyMergeUnpack {α β : Type} [DecidableEq α] (d1 d2 : List (α × β)) :
    List (α × β) :=
  dictUpdate (dictUpdate [] d1) d2

/-- The alternative merge of lines 87-88: d1.copy() then .update(d2). -/
def pyMergeCopyUpdate {α β : Type} [DecidableEq α] (d1 d2 : List (α × β)) :
    List (α × β) :=
  dictUpdate d1 d2

/-- Python d.get(k) / d[k] lookup, Option.none when the key is absent. -/
def dictLookup {α β : Type} [DecidableEq α] (d : List (α × β)) (k : α) :
    Option β :=
  (d.find? (fun p => p.1 = k)).map Prod.snd

/-- dict1 (line 80). -/
def dict1 : List (String × Int) := [("a", 1), ("b", 2)]

/-- dict2 (line 81). -/
def dict2 : List (String × Int) := [("b", 3), ("c", 4)]

/-- merged (line 82). -/
def merged : List (String × Int) := pyMergeUnpack dict1 dict2

/-- merged_alt (lines 87-88). -/
def merged_alt : List (String × Int) := pyMergeCopyUpdate dict1 dict2

/-! ## Section 3 of the script: set operations -/

/-- Python set(l): insert the elements of the list into a fresh set. -/
def pySet (l : List Int) : Finset Int :=
  l.foldl (fun s x => insert x s) ∅

/-- Python symmetric difference set1 ^ set2. -/
def pySymmDiff (a b : Finset Int) : Finset Int := (a \ b) ∪ (b \ a)

namespace SetOps

/-- list1 (line 103). -/
def list1 : List Int := [1, 2, 3, 4]

/-- list2 (line 104). -/
def list2 : List Int := [3, 4, 5, 6]

/-- common (line 107): set(list1) & set(list2). -/
def common : Finset Int := pySet list1 ∩ pySet list2

/-- uncommon (line 113): set(list1) ^ set(list2). -/
def uncommon : Finset Int := pySymmDiff (pySet list1) (pySet list2)

/-- union (line 119): set(list1) | set(list2). -/
def union : Finset Int := pySet list1 ∪ pySet list2

/-- difference (line 125): set(list1) - set(list2). -/
def difference : Finset Int := pySet list1 \ pySet list2

end SetOps

/-! ## Flatten comprehension (lines 47-48) -/

/-- The nested comprehension [num for sublist in nested for num in sublist]:
iterate the sublists in order, appending each element to the result. -/
def flattenComp {α : Type} (nested : List (List α)) : List α :=
  nested.foldl (fun acc sub => acc ++ sub) []

/-- nested_list (line 47). -/
def nested_list : List (List Int) := [[1, 2, 3], [4, 5], [6, 7, 8]]

/-- flattened (line 48). -/
def flattened : List Int := flattenComp nested_list

/-! ## Section 11, second pattern (lines 354-361): multiple operations with a
single handler. Each zero-argument operation is embedded as a thunk returning
Option Int, where Option.none models a raised exception. -/

/-- operations (line 354): [lambda: 10//2, lambda: int("abc"), lambda: 42].
Python // is floor division, Int.fdiv. -/
def operations : List (Unit → Option Int) :=
  [fun _ => Option.some (Int.fdiv 10 2),
   fun _ => strToInt "abc",
   fun _ => Option.some 42]

/-- results (lines 355-360): invoke each operation, keeping its value on
success and substituting None (here Option.none) when it raises. -/
def results : List (Option Int) := operations.map (fun op => op ())

/-! ## Section 7 of the script: zip and unzip (lines 231-241)

Python zip(it1, ..., itk) produces, while every iterable still has an element,
the tuple of the next element of each; with zero iterables it is empty. The
rows fed to zip(*rows) and the tuples it yields are both embedded as lists. -/

/-- One zip step over a list of rows: the list of their first elements paired
with the list of their remainders, or Option.none when some row is exhausted.
Applied to an empty collection of rows it yields an empty tuple, as zip() with
zero arguments would keep doing. -/
def popColumn {α : Type} : List (List α) → Option (List α × List (List α))
  | [] => Option.some ([], [])
  | [] :: _ => Option.none
  | (x :: xs) :: rest =>
    match popColumn rest with
    | Option.none => Option.none
    | Option.some (hs, ts) => Option.some (x :: hs, xs :: ts)

/-- Iterate popColumn at most fuel times, stopping at the first exhausted
row. -/
def zipManyGo {α : Type} : Nat → List (List α) → List (List α)
  | 0, _ => []
  | Nat.succ fuel, rows =>
    match popColumn rows with
    | Option.none => []
    | Option.some (hs, ts) => hs :: zipManyGo fuel ts

/-- Python list(zip(*rows)): empty when there are no rows (zip() of nothing is
empty); otherwise steps while every row has an element. The length of the
first row bounds the number of steps, since zip stops at the shortest
iterable. -/
def pyZipMany {α : Type} (rows : List (List α)) : List (List α) :=
  match rows with
  | [] => []
  | r :: rest => zipManyGo r.length (r :: rest)

/-- A literal value of the zip snippet: the integers of list1 or the one-char
strings of list2. -/
inductive PyLit where
  | intv (n : Int)
  | strv (s : String)
deriving DecidableEq

namespace ZipOps

/-- list1 (line 231). -/
def list1 : List PyLit := [PyLit.intv 1, PyLit.intv 2, PyLit.intv 3]

/-- list2 (line 232). -/
def list2 : List PyLit := [PyLit.strv "a", PyLit.strv "b", PyLit.strv "c"]

/-- zipped (line 233): list(zip(list1, list2)). -/
def zipped : List (List PyLit) := pyZipMany [list1, list2]

/-- unzipped (line 238): list(zip(*zipped)). -/
def unzipped : List (List PyLit) := pyZipMany zipped

end ZipOps

/-! ## Execution environment (claim about determinism)

Two snippets consult the outside world: the directory listing of line 326 and
the datetime.now() arithmetic of lines 395-398. An execution environment
carries what they read; every other snippet ignores it. -/

/-- The parts of the outside world the script reads: the current date as
formatted by strftime with format %Y-%m-%d, and the names of the files of the
current directory. -/
structure ExecEnv where
  nowDate : String
  dirFiles : List String
deriving DecidableEq

/-- Output of line 397: the Today line printed by the datetime snippet. -/
def todayOutput (env : ExecEnv) : String := "Today: " ++ env.nowDate

/-- current_files (line 326): the file names of the current directory. -/
def current_files (env : ExecEnv) : List String := env.dirFiles

/-- Output of the squared snippet (line 23) as a function of the environment:
it reads nothing from it. -/
def squaredOutput (_ : ExecEnv) : List Int := squared

/-- Output of the flattened snippet (line 49) as a function of the
environment. -/
def flattenedOutput (_ : ExecEnv) : List Int := flattened

/-- Output of the dictionary-merge snippet (line 83) as a function of the
environment. -/
def mergedOutput (_ : ExecEnv) : List (String × Int) := merged

/-- Output of the fallback-conversion snippet (line 350) as a function of the
environment. -/
def convertedFallbackOutput (_ : ExecEnv) : List Int := convertedFallback

/-! ## Helper lemmas -/

/-- Folding append over a list of lists concatenates them after the
accumulator. -/
theorem foldl_append_eq_flatten {α : Type} (l : List (List α)) :
    ∀ acc : List α, l.foldl (fun a sub => a ++ sub) acc = acc ++ l.flatten := by
  induction l with
  | nil => intro acc; simp
  | cons hd tl ih => intro acc; simp [ih, List.append_assoc]

/-- Assigning an absent key appends the pair at the end. -/
theorem dictSet_not_mem {α β : Type} [DecidableEq α] (d : List (α × β)) (k : α)
    (v : β) (h : k ∉ d.map Prod.fst) : dictSet d k v = d ++ [(k, v)] := by
  simp [dictSet, h]

/-- Updating with entries whose keys are distinct and absent from the
receiving dict appends them in order. -/
theorem dictUpdate_fresh {α β : Type} [DecidableEq α] :
    ∀ (entries acc : List (α × β)), (entries.map Prod.fst).Nodup →
      (∀ k ∈ entries.map Prod.fst, k ∉ acc.map Prod.fst) →
      dictUpdate acc entries = acc ++ entries := by
  intro entries
  induction entries with
  | nil => intro acc _ _; simp [dictUpdate]
  | cons p rest ih =>
    intro acc hnd hfresh
    obtain ⟨k, v⟩ := p
    have hnd2 : (k :: rest.map Prod.fst).Nodup := by simpa using hnd
    have hk : k ∉ acc.map Prod.fst := hfresh k (by simp)
    have hstep : dictUpdate acc ((k, v) :: rest) = dictUpdate (acc ++ [(k, v)]) rest := by
      simp [dictUpdate, dictSet_not_mem acc k v hk]
    rw [hstep, ih (acc ++ [(k, v)]) (List.nodup_cons.mp hnd2).2 ?_]
    · simp
    · intro k2 hk2
      have h1 : k2 ∉ acc.map Prod.fst := hfresh k2 (by simp [hk2])
      have h2 : k2 ≠ k := by
        intro he
        exact (List.nodup_cons.mp hnd2).1 (he ▸ hk2)
      simp [h1, h2]

/-- One step of zipManyGo when no row is exhausted. -/
theorem zipManyGo_step {α : Type} (fuel : Nat) (rows : List (List α))
    (hs : List α) (ts : List (List α)) (h : popColumn rows = Option.some (hs, ts)) :
    zipManyGo (Nat.succ fuel) rows = hs :: zipManyGo fuel ts := by
  simp [zipManyGo, h]

/-- Zipping two equally long lists row by row yields their zipWith pairs. -/
theorem zipManyGo_pair {α : Type} :
    ∀ (as bs : List α), as.length = bs.length →
      zipManyGo as.length [as, bs] = List.zipWith (fun a b => [a, b]) as bs := by
  intro as
  induction as with
  | nil => intro bs _; simp [zipManyGo]
  | cons a as2 ih =>
    intro bs h
    cases bs with
    | nil => simp at h
    | cons b bs2 =>
      have h2 : as2.length = bs2.length := by simpa using h
      have hpop : popColumn [a :: as2, b :: bs2] =
          Option.some ([a, b], [as2, bs2]) := rfl
      show zipManyGo (Nat.succ as2.length) [a :: as2, b :: bs2] = _
      rw [zipManyGo_step as2.length _ _ _ hpop]
      simp [List.zipWith_cons_cons, ih bs2 h2]

/-- The first column of a list of pair rows built from equally long lists is
the list of first components. -/
theorem popColumn_pairs {α : Type} :
    ∀ (as bs : List α), as.length = bs.length →
      popColumn (List.zipWith (fun a b => [a, b]) as bs) =
        Option.some (as, List.zipWith (fun _a b => [b]) as bs) := by
  intro as
  induction as with
  | nil => intro bs _; simp [popColumn]
  | cons a as2 ih =>
    intro bs h
    cases bs with
    | nil => simp at h
    | cons b bs2 =>
      have h2 : as2.length = bs2.length := by simpa using h
      simp [List.zipWith_cons_cons, popColumn, ih bs2 h2]

/-- The first column of the remaining single-element rows is the list of
second components. -/
theorem popColumn_singles {α : Type} :
    ∀ (as bs : List α), as.length = bs.length →
      popColumn (List.zipWith (fun _a b => [b]) as bs) =
        Option.some (bs, List.zipWith (fun _a _b => ([] : List α)) as bs) := by
  intro as
  induction as with
  | nil =>
    intro bs h
    cases bs with
    | nil => simp [popColumn]
    | cons b bs2 => simp at h
  | cons a as2 ih =>
    intro bs h
    cases bs with
    | nil => simp at h
    | cons b bs2 =>
      have h2 : as2.length = bs2.length := by simpa using h
      simp [List.zipWith_cons_cons, popColumn, ih bs2 h2]

/-- Unzipping a nonempty list of pair rows recovers the two source lists. -/
theorem pyZipMany_pairs {α : Type} (as bs : List α) (h : as.length = bs.length)
    (hne : as ≠ []) :
    pyZipMany (List.zipWith (fun a b => [a, b]) as bs) = [as, bs] := by
  cases as with
  | nil => exact absurd rfl hne
  | cons a as2 =>
    cases bs with
    | nil => simp at h
    | cons b bs2 =>
      have hp := popColumn_pairs (a :: as2) (b :: bs2) h
      have hsi := popColumn_singles (a :: as2) (b :: bs2) h
      have hZ : pyZipMany (List.zipWith (fun a b => [a, b]) (a :: as2) (b :: bs2)) =
          zipManyGo 2 (List.zipWith (fun a b => [a, b]) (a :: as2) (b :: bs2)) := rfl
      rw [hZ, show (2 : Nat) = Nat.succ 1 from rfl, zipManyGo_step 1 _ _ _ hp,
        show (1 : Nat) = Nat.succ 0 from rfl, zipManyGo_step 0 _ _ _ hsi]
      simp [zipManyGo]

/-! ## Claim theorems -/

/-- Claim C1: safe_convert returns int(value) when the conversion succeeds and
the caller-supplied default when it raises ValueError or TypeError; mapping it
with default 0 over the test values, a string of digits, a non-numeric string,
None and a float-looking string, yields [42, 0, 0, 0]. -/
theorem safe_convert_spec :
    (∀ (v : PyVal) (d n : Int), pyIntConv v = Option.some n → safe_convert v d = n) ∧
    (∀ (v : PyVal) (d : Int), pyIntConv v = Option.none → safe_convert v d = d) ∧
    convertedFallback = [42, 0, 0, 0] := by
  refine ⟨?_, ?_, by decide⟩
  · intro v d n h
    simp [safe_convert, h]
  · intro v d h
    simp [safe_convert, h]

/-- Witness for C1: the success branch at the digit string and the fallback
branch at the float-looking string, each with default 7. -/
theorem safe_convert_spec_witness :
    safe_convert (PyVal.str "42") 7 = 42 ∧ safe_convert (PyVal.str "3.14") 7 = 7 :=
  ⟨safe_convert_spec.1 (PyVal.str "42") 7 42 (by decide),
   safe_convert_spec.2.1 (PyVal.str "3.14") 7 (by decide)⟩

/-- Counterexample to claim C2: the datetime snippet prints the Today line
from the clock, so two executions on different dates print different
output. -/
theorem today_output_varies :
    todayOutput ⟨"2023-12-25", []⟩ ≠ todayOutput ⟨"2023-12-26", []⟩ := by
  decide

/-- Claim C2 as amended: snippets built only from literal inputs print the
same output in every execution environment, but the datetime snippet and the
directory-listing snippet read the environment and can differ between
executions. -/
theorem snippet_determinism :
    (∀ e1 e2 : ExecEnv,
      squaredOutput e1 = squaredOutput e2 ∧
      flattenedOutput e1 = flattenedOutput e2 ∧
      mergedOutput e1 = mergedOutput e2 ∧
      convertedFallbackOutput e1 = convertedFallbackOutput e2) ∧
    (∃ e1 e2 : ExecEnv, todayOutput e1 ≠ todayOutput e2) ∧
    (∃ e1 e2 : ExecEnv, current_files e1 ≠ current_files e2) := by
  refine ⟨fun e1 e2 => ⟨rfl, rfl, rfl, rfl⟩, ?_, ?_⟩
  · exact ⟨⟨"2023-12-25", []⟩, ⟨"2023-12-26", []⟩, by decide⟩
  · exact ⟨⟨"2023-12-25", []⟩, ⟨"2023-12-25", ["a.txt"]⟩, by decide⟩

/-- Claim C3: invoking the three operations in order, floor division of 10 by
2, int() of a non-numeric string, and the constant 42, substituting None for
the raised failure, yields [5, None, 42]. -/
theorem results_spec :
    results = [Option.some 5, Option.none, Option.some 42] := by decide

/-- Claim C4: merging dict1 and dict2 by unpacking yields exactly the dict
mapping a to 1, b to 3 and c to 4; every key of either input appears, and on
the shared key b the value of the later dict wins. -/
theorem merged_spec :
    merged = [("a", 1), ("b", 3), ("c", 4)] ∧
    dict1.all (fun p => (merged.map Prod.fst).contains p.1) = true ∧
    dict2.all (fun p => (merged.map Prod.fst).contains p.1) = true ∧
    dictLookup merged "b" = Option.some 3 := by decide

/-- Claim C5: for the lists [1,2,3,4] and [3,4,5,6] converted to sets, the
intersection is {3,4}, the symmetric difference is {1,2,5,6}, the union is
{1,2,3,4,5,6} and the difference is {1,2}. -/
theorem set_ops_spec :
    SetOps.common = {3, 4} ∧
    SetOps.uncommon = {1, 2, 5, 6} ∧
    SetOps.union = {1, 2, 3, 4, 5, 6} ∧
    SetOps.difference = {1, 2} := by decide

/-- Claim C6: flattening the nested list yields [1,2,3,4,5,6,7,8], and in
general the nested comprehension concatenates the sublists in order. -/
theorem flattened_spec :
    flattened = [1, 2, 3, 4, 5, 6, 7, 8] ∧
    ∀ l : List (List Int), flattenComp l = l.flatten := by
  refine ⟨by decide, fun l => ?_⟩
  simpa using foldl_append_eq_flatten l []

/-- Claim C7: squaring each element of [1,2,3,4,5] yields [1,4,9,16,25],
preserving order and length. -/
theorem squared_spec :
    squared = [1, 4, 9, 16, 25] ∧ squared.length = numbers.length := by decide

/-- Claim C8: converting each character of the digit string to its integer
value yields [1,3,2,4,3,2,4,2], with no conversion failing. -/
theorem converted_spec :
    converted = Option.some [1, 3, 2, 4, 3, 2, 4, 2] := by decide

/-- Claim C9: the two dictionary-merge methods agree on every pair of dicts,
unpacking both into a fresh dict equals copying the first and updating it with
the second. The first dict, being a dict, has pairwise distinct keys. -/
theorem merge_methods_agree {α β : Type} [DecidableEq α] (d1 d2 : List (α × β))
    (h : (d1.map Prod.fst).Nodup) :
    pyMergeUnpack d1 d2 = pyMergeCopyUpdate d1 d2 := by
  have h1 : dictUpdate ([] : List (α × β)) d1 = d1 := by
    simpa using dictUpdate_fresh d1 [] h (by simp)
  simp [pyMergeUnpack, pyMergeCopyUpdate, h1]

/-- Witness for C9: both merge methods produce the same dict for the literal
dict1 and dict2 of the script. -/
theorem merge_methods_agree_witness :
    pyMergeUnpack dict1 dict2 = pyMergeCopyUpdate dict1 dict2 :=
  merge_methods_agree dict1 dict2 (by decide)

/-- Counterexample to claim C10: for two empty lists, of equal length 0,
unzipping their zip yields the empty list of rows, not the pair of empty
tuples. -/
theorem zip_roundtrip_empty_fails :
    pyZipMany (pyZipMany [([] : List Int), []]) ≠ [[], []] := by decide

/-- Claim C10 as amended: for every two lists of equal nonzero length,
unzipping their zip recovers the pair of original lists; at length zero the
round trip instead yields an empty result, since zip of no rows is empty. -/
theorem zip_roundtrip {α : Type} (l1 l2 : List α) (hlen : l1.length = l2.length)
    (hne : l1 ≠ []) :
    pyZipMany (pyZipMany [l1, l2]) = [l1, l2] := by
  have h1 : pyZipMany [l1, l2] = List.zipWith (fun a b => [a, b]) l1 l2 :=
    zipManyGo_pair l1 l2 hlen
  rw [h1]
  exact pyZipMany_pairs l1 l2 hlen hne

/-- Witness for C10: the round trip at the literal lists of the script, the
integers 1, 2, 3 and the strings a, b, c. -/
theorem zip_roundtrip_witness :
    pyZipMany (pyZipMany [ZipOps.list1, ZipOps.list2]) = [ZipOps.list1, ZipOps.list2] :=
  zip_roundtrip ZipOps.list1 ZipOps.list2 (by decide) (by decide)

end PyPatterns
